import Mathlib

/-!
Shallow embedding of `src/API.py` (LINE membership-card service).

The `members` SQLite table becomes a list of `Member` records; SQL
statements become list operations (`SELECT ... WHERE` → `List.find?` /
`List.any`, `UPDATE` → `List.map`, `INSERT` → append).  The module-level
randomness (`random.randint(1, 9999)`) is modelled by an explicit stream
of draw results passed to `generate_member_number`; the stream carries
the outputs of successive `randint` calls, each of which lies in
`[1, 9999]`.  A possible database failure raised by the write/commit
step is modelled by an `Option String` holding the exception text
(`str(e)`); `None` means the write succeeds.  Flask responses are
modelled by small inductive types recording the rendered view or the
JSON error payload together with its HTTP status.
-/

/-- One row of the `members` table (`init_db`, src/API.py lines 89-98).
`email` and `phone_number` are nullable columns; the other columns are
`NOT NULL`, and `line_user_id` and `member_number` are `UNIQUE`. -/
structure Member where
  line_user_id : String
  name : String
  region : String
  email : Option String
  phone_number : Option String
  member_number : String
deriving Repr, DecidableEq

/-- The `members` table, in insertion order. -/
abbrev Store := List Member

/-- Lookup `SELECT * FROM members WHERE line_user_id = ?` followed by
`fetchone()` (src/API.py line 198). -/
def find_by_line_user_id (store : Store) (uid : String) : Option Member :=
  store.find? (fun m => m.line_user_id == uid)

/-- Existence check `SELECT * FROM members WHERE member_number = ?` followed
by a truthiness test on `fetchone()` (src/API.py lines 174-175). -/
def member_number_used (store : Store) (num : String) : Bool :=
  store.any (fun m => m.member_number == num)

/-- The member numbers currently present in the table. -/
def memberNumbers (store : Store) : List String :=
  store.map (fun m => m.member_number)

/-- Python `f"{r:04d}"` for `r = random.randint(1, 9999)` (src/API.py
line 173): the decimal digits of `r` zero-padded to width 4.  Every value
this is applied to lies in `[1, 9999]` (the `randint` contract), where
`%04d` prints exactly the four base-10 digits of `r`. -/
def format04d (r : Nat) : String :=
  ⟨[Nat.digitChar (r / 1000 % 10), Nat.digitChar (r / 100 % 10),
    Nat.digitChar (r / 10 % 10), Nat.digitChar (r % 10)]⟩

/-- Python `f"M{random.randint(1, 9999):04d}"` applied to one draw result
`r` (src/API.py line 173). -/
def mkMemberNumber (r : Nat) : String :=
  "M" ++ format04d r

/-- The `generate_member_number` function (src/API.py lines 166-176): draw a random
suffix, return `M%04d` of it if unused, otherwise retry.  The `while True`
loop is driven by the draw stream; an exhausted stream (`none`) stands for
the loop not having terminated on the draws made so far. -/
def generate_member_number (store : Store) : List Nat → Option String
  | [] => none
  | r :: rs =>
    let member_number := mkMemberNumber r
    if member_number_used store member_number then
      generate_member_number store rs
    else
      some member_number

/-- The POST form of the `/register` route.  A field is `none` when the
key is absent from the form: for `line_user_id`, `name` and `region` the
code indexes `request.form[...]`, which raises on a missing key; `email`
and `phone_number` use `request.form.get(...)` (src/API.py lines 187-191). -/
structure RegisterForm where
  line_user_id : Option String
  name : Option String
  region : Option String
  email : Option String
  phone_number : Option String
deriving Repr, DecidableEq

/-- Outcome of the `/register` POST handler: a rendered
`registration_complete.html` (HTTP 200), the `ValueError` JSON payload
(HTTP 400, src/API.py line 234), or the generic-failure JSON payload
(HTTP 500, src/API.py line 238). -/
inductive RegisterResponse where
  | complete (message : String) (user_id : String)
  | badRequest (message : String)
  | serverError (message : String)
deriving Repr, DecidableEq

/-- HTTP status of a `/register` response. -/
def RegisterResponse.status : RegisterResponse → Nat
  | complete _ _ => 200
  | badRequest _ => 400
  | serverError _ => 500

/-- Text of `str(e)` for the exception Flask raises when a required form key is
missing (a `BadRequestKeyError`, caught by the handler's own
`except Exception` clause before Flask can turn it into a 400).  The
exact text plays no role in any property below. -/
def keyErrorMessage : String :=
  "400 Bad Request: The browser (or proxy) sent a request that this server could not understand."

/-- Check `if email and "@" not in email` (src/API.py lines 212 and 298):
Python truthiness skips `None` and the empty string; `"@" not in email`
is single-character substring absence, i.e. no `@` among the characters. -/
def email_format_invalid : Option String → Bool
  | none => false
  | some e => !e.data.isEmpty && !(e.data.contains '@')

/-- Python `str.isdigit` restricted to ASCII digits (the only digits
relevant to this code): non-empty and every character in `0`-`9`. -/
def pyIsdigit (s : String) : Bool :=
  !s.data.isEmpty && s.data.all (fun c => c.isDigit)

/-- Check `if phone_number and not phone_number.isdigit()` (src/API.py line 216). -/
def phone_format_invalid : Option String → Bool
  | none => false
  | some p => !p.data.isEmpty && !(pyIsdigit p)

/-- The `/register` POST handler (src/API.py lines 178-238).

Flow: read the form (missing required key → exception → the
`except Exception` branch: rollback, HTTP 500); required-field check
(`if not name or not region` → `ValueError` → rollback, HTTP 400);
look up `line_user_id`; if found, `UPDATE` name/region/email/phone and
keep the stored `member_number`; otherwise validate email and phone,
generate a member number and `INSERT` a full row.  `dbError = some cause`
means the write/commit raises an exception with text `cause`: the
`except Exception` branch rolls the transaction back (the table is left
as it was) and returns the HTTP 500 payload with
`'会員登録に失敗しました。' + str(e)`.  The result is `none` exactly when
`generate_member_number` has not terminated on the given draw stream. -/
def register (dbError : Option String) (form : RegisterForm) (stream : List Nat)
    (store : Store) : Option (RegisterResponse × Store) :=
  match form.line_user_id, form.name, form.region with
  | some line_user_id, some name, some region =>
    if name == "" || region == "" then
      some (.badRequest "名前と地域は必須項目です。", store)
    else
      match find_by_line_user_id store line_user_id with
      | some _existing =>
        match dbError with
        | some cause => some (.serverError ("会員登録に失敗しました。" ++ cause), store)
        | none =>
          some (.complete "会員情報を更新しました。" line_user_id,
            store.map (fun m =>
              if m.line_user_id == line_user_id then
                { m with name := name, region := region,
                         email := form.email, phone_number := form.phone_number }
              else m))
      | none =>
        if email_format_invalid form.email then
          some (.badRequest "メールアドレスの形式が正しくありません。", store)
        else if phone_format_invalid form.phone_number then
          some (.badRequest "電話番号の形式が正しくありません。", store)
        else
          match generate_member_number store stream with
          | none => none
          | some member_number =>
            match dbError with
            | some cause => some (.serverError ("会員登録に失敗しました。" ++ cause), store)
            | none =>
              some (.complete "会員登録が完了しました。" line_user_id,
                store ++ [{ line_user_id := line_user_id, name := name, region := region,
                            email := form.email, phone_number := form.phone_number,
                            member_number := member_number }])
  | _, _, _ =>
    some (.serverError ("会員登録に失敗しました。" ++ keyErrorMessage), store)

/-- Outcome of the `/show_member_card` GET route: the rendered card view,
or the redirect to the registration form (src/API.py lines 261-275). -/
inductive CardResponse where
  | card (name : String) (region : String) (member_number : String)
  | redirectToRegistrationForm (user_id : Option String)
deriving Repr, DecidableEq

/-- The `/show_member_card` route (src/API.py lines 261-275).  `user_id` comes from
`request.args.get`, so it may be absent; `WHERE line_user_id = NULL`
matches no row. -/
def show_member_card (user_id : Option String) (store : Store) : CardResponse :=
  match user_id with
  | none => .redirectToRegistrationForm none
  | some uid =>
    match find_by_line_user_id store uid with
    | some m => .card m.name m.region m.member_number
    | none => .redirectToRegistrationForm (some uid)

/-- The registration-form link `url_for('show_registration_form', user_id=...)`
sent by the bot (src/API.py line 139), modelled as the route path. -/
def register_form_url (user_id : String) : String :=
  "/register_form/" ++ user_id

/-- The LINE text-message handler `handle_message` (src/API.py
lines 127-157), returning the reply text. -/
def handle_message (line_user_id : String) (text : String) (store : Store) : String :=
  if text == "登録" then
    "以下のURLから会員登録を行ってください。\n" ++ register_form_url line_user_id
  else if text == "会員証" then
    match find_by_line_user_id store line_user_id with
    | some m =>
      "名前: " ++ m.name ++ "\n地域: " ++ m.region ++ "\n会員番号: " ++ m.member_number
    | none => "会員情報が登録されていません。登録してください。"
  else
    "登録 または 会員証 と送信してください。"

/-- Outcome of the `/update_profile` POST handler (src/API.py
lines 277-319): the rendered `update_complete.html`, the missing-user-id
JSON payload (HTTP 400), the `ValueError` flash-and-redirect, or the
generic-failure JSON payload (HTTP 500). -/
inductive UpdateResponse where
  | complete
  | missingUserId
  | validationRedirect (message : String)
  | serverError
deriving Repr, DecidableEq

/-- The `/update_profile` POST handler (src/API.py lines 277-319).

`user_id`, `email` and `member_number` come from `request.form.get`, so
each may be absent.  The handler validates only the email shape, then runs
`UPDATE members SET email = ?, member_number = ? WHERE line_user_id = ?`
and commits.  The table constraints make the `UPDATE` itself raise (and
the `except Exception` branch roll back and answer HTTP 500) when a row
matches and the new `member_number` is `NULL` (`NOT NULL` column) or
collides with another row's number (`UNIQUE` column); an `UPDATE`
matching no row commits without effect. -/
def update_profile_post (user_id : Option String) (email : Option String)
    (member_number : Option String) (store : Store) : UpdateResponse × Store :=
  match user_id with
  | none => (.missingUserId, store)
  | some uid =>
    if email_format_invalid email then
      (.validationRedirect "メールアドレスの形式が正しくありません。", store)
    else if store.any (fun m => m.line_user_id == uid) then
      match member_number with
      | none => (.serverError, store)
      | some mn =>
        if store.any (fun m => m.line_user_id != uid && m.member_number == mn) then
          (.serverError, store)
        else
          (.complete, store.map (fun m =>
            if m.line_user_id == uid then
              { m with email := email, member_number := mn }
            else m))
    else
      (.complete, store)

/-- No `@` occurs in the character list: the `[^@]*` character class. -/
def noAt (l : List Char) : Bool :=
  l.all (fun c => c != '@')

/-- The list contains a `.` at an interior position, so that it splits as
`[^@]+ \. [^@]+` once the whole list is known to be `@`-free. -/
def interiorDot (l : List Char) : Bool :=
  (List.range l.length).any (fun i =>
    decide (1 ≤ i) && decide (i + 1 < l.length) && (l.getD i ' ' == '.'))

/-- The spec's email pattern `^[^@]+@[^@]+\.[^@]+$`, stated from the
spec's words for comparison with the code's check: the string splits at a
single `@` into a non-empty `@`-free local part and an `@`-free domain
part containing a `.` with at least one character on each side. -/
def matchesEmailPattern (s : String) : Bool :=
  (List.range s.data.length).any (fun i =>
    (s.data.getD i ' ' == '@') && !(s.data.take i).isEmpty &&
    noAt (s.data.take i) && noAt (s.data.drop (i + 1)) &&
    interiorDot (s.data.drop (i + 1)))

/-- The spec's member-number format `M\d{4}`: the letter `M` followed by
exactly four decimal digits. -/
def matchesMemberNumberFormat (s : String) : Bool :=
  match s.data with
  | ['M', a, b, c, d] => a.isDigit && b.isDigit && c.isDigit && d.isDigit
  | _ => false

/-- A table holding every possible member number `M0001`-`M9999`: the
state on which the generator's retry loop can never finish. -/
def fullStore : Store :=
  (List.range 9999).map (fun i =>
    { line_user_id := "U" ++ toString i, name := "N", region := "R",
      email := none, phone_number := none, member_number := mkMemberNumber (i + 1) })

/-- Auxiliary: mapping a function that does not change the searched
predicate commutes with `List.find?`. -/
theorem find?_map_of_comm (f : Member → Member) (p : Member → Bool)
    (h : ∀ x, p (f x) = p x) :
    ∀ l : List Member, (l.map f).find? p = (l.find? p).map f := by
  intro l
  induction l with
  | nil => rfl
  | cons a as ih =>
    simp only [List.map_cons, List.find?, h a]
    cases hp : p a <;> simp [ih]

/-- Auxiliary: a `List.find?` hit in the left part survives appending. -/
theorem find?_append_left {p : Member → Bool} :
    ∀ (l₁ : List Member) (l₂ : List Member) (m : Member),
      l₁.find? p = some m → (l₁ ++ l₂).find? p = some m := by
  intro l₁ l₂ m h
  induction l₁ with
  | nil => simp [List.find?] at h
  | cons a as ih =>
    simp only [List.cons_append, List.find?] at h ⊢
    cases hp : p a <;> simp [hp] at h ⊢ <;> simp_all

/-- Auxiliary: `Nat.digitChar` of a value below ten is a decimal digit. -/
theorem digitChar_isDigit : ∀ d : Nat, d < 10 → (Nat.digitChar d).isDigit = true := by
  decide

/-- Auxiliary: every generated member number has shape `M` + 4 digits. -/
theorem mkMemberNumber_format (r : Nat) :
    matchesMemberNumberFormat (mkMemberNumber r) = true := by
  have h : mkMemberNumber r =
      ⟨['M', Nat.digitChar (r / 1000 % 10), Nat.digitChar (r / 100 % 10),
        Nat.digitChar (r / 10 % 10), Nat.digitChar (r % 10)]⟩ := rfl
  rw [h]
  simp only [matchesMemberNumberFormat]
  rw [digitChar_isDigit _ (Nat.mod_lt _ (by decide)),
    digitChar_isDigit _ (Nat.mod_lt _ (by decide)),
    digitChar_isDigit _ (Nat.mod_lt _ (by decide)),
    digitChar_isDigit _ (Nat.mod_lt _ (by decide))]
  rfl

/-- Auxiliary: a number returned by the generator is unused in the store
it was checked against (src/API.py lines 172-176). -/
theorem generate_fresh :
    ∀ (stream : List Nat) (store : Store) (num : String),
      generate_member_number store stream = some num →
      member_number_used store num = false := by
  intro stream
  induction stream with
  | nil => intro store num h; simp [generate_member_number] at h
  | cons r rs ih =>
    intro store num h
    rw [generate_member_number] at h
    by_cases hc : member_number_used store (mkMemberNumber r) = true
    · simp only [hc, if_true] at h
      exact ih store num h
    · simp only [Bool.not_eq_true] at hc
      simp only [hc, Bool.false_eq_true, if_false, Option.some.injEq] at h
      rw [← h]
      exact hc

/-- Auxiliary: a number returned by the generator matches `M\d{4}`. -/
theorem generate_format :
    ∀ (stream : List Nat) (store : Store) (num : String),
      generate_member_number store stream = some num →
      matchesMemberNumberFormat num = true := by
  intro stream
  induction stream with
  | nil => intro store num h; simp [generate_member_number] at h
  | cons r rs ih =>
    intro store num h
    rw [generate_member_number] at h
    by_cases hc : member_number_used store (mkMemberNumber r) = true
    · simp only [hc, if_true] at h
      exact ih store num h
    · simp only [Bool.not_eq_true] at hc
      simp only [hc, Bool.false_eq_true, if_false, Option.some.injEq] at h
      rw [← h]
      exact mkMemberNumber_format r

/-- Claim C1 (amended): the `register` path never changes the
`member_number` of a row that already exists — every row findable by
`line_user_id` before a `register` call is still findable afterwards with
the same `member_number`, on every branch (update, insert, validation
failure, database failure, missing form key).  The reassignment through
the profile-update path that the original claim ruled out is refuted
separately by the counterexample. -/
theorem register_preserves_existing_member_number
    (dbError : Option String) (form : RegisterForm) (stream : List Nat)
    (store : Store) (resp : RegisterResponse) (store' : Store)
    (hreg : register dbError form stream store = some (resp, store'))
    (uid : String) (m : Member)
    (hfind : find_by_line_user_id store uid = some m) :
    ∃ m', find_by_line_user_id store' uid = some m' ∧
      m'.member_number = m.member_number := by
  rcases form with ⟨olu, onm, org, oem, oph⟩
  have same : store' = store → ∃ m', find_by_line_user_id store' uid = some m' ∧
      m'.member_number = m.member_number := by
    intro he; exact ⟨m, by rw [he]; exact hfind, rfl⟩
  match olu, onm, org with
  | none, _, _ => simp [register] at hreg; exact same hreg.2.symm
  | some lu, none, _ => simp [register] at hreg; exact same hreg.2.symm
  | some lu, some nm, none => simp [register] at hreg; exact same hreg.2.symm
  | some lu, some nm, some rg =>
    rw [register] at hreg
    simp only at hreg
    by_cases hemp : (nm == "" || rg == "") = true
    · rw [if_pos hemp] at hreg
      simp only [Option.some.injEq, Prod.mk.injEq] at hreg
      exact same hreg.2.symm
    · rw [if_neg (by simp [hemp])] at hreg
      cases hex : find_by_line_user_id store lu with
      | some ex =>
        rw [hex] at hreg
        cases dbError with
        | some cause =>
          simp only [Option.some.injEq, Prod.mk.injEq] at hreg
          exact same hreg.2.symm
        | none =>
          simp only [Option.some.injEq, Prod.mk.injEq] at hreg
          have hst : store' = store.map (fun x =>
              if x.line_user_id == lu then
                { x with name := nm, region := rg, email := oem, phone_number := oph }
              else x) := hreg.2.symm
          rw [hst]
          have hcomm : ∀ x : Member,
              ((fun y : Member => y.line_user_id == uid)
                (if x.line_user_id == lu then
                  { x with name := nm, region := rg, email := oem, phone_number := oph }
                else x)) = (x.line_user_id == uid) := by
            intro x
            by_cases hx : (x.line_user_id == lu) = true <;> simp [hx]
          unfold find_by_line_user_id at hfind ⊢
          rw [find?_map_of_comm _ _ hcomm, hfind]
          by_cases hm : (m.line_user_id == lu) = true <;>
            simp [hm] <;> split <;> rfl
      | none =>
        rw [hex] at hreg
        by_cases hem : email_format_invalid oem = true
        · rw [if_pos hem] at hreg
          simp only [Option.some.injEq, Prod.mk.injEq] at hreg
          exact same hreg.2.symm
        · rw [if_neg hem] at hreg
          by_cases hph : phone_format_invalid oph = true
          · rw [if_pos hph] at hreg
            simp only [Option.some.injEq, Prod.mk.injEq] at hreg
            exact same hreg.2.symm
          · rw [if_neg hph] at hreg
            cases hgen : generate_member_number store stream with
            | none => rw [hgen] at hreg; simp at hreg
            | some num =>
              rw [hgen] at hreg
              cases dbError with
              | some cause =>
                simp only [Option.some.injEq, Prod.mk.injEq] at hreg
                exact same hreg.2.symm
              | none =>
                simp only [Option.some.injEq, Prod.mk.injEq] at hreg
                have hst : store' = store ++
                    [{ line_user_id := lu, name := nm, region := rg, email := oem,
                       phone_number := oph, member_number := num }] := hreg.2.symm
                rw [hst]
                exact ⟨m, find?_append_left store _ m hfind, rfl⟩

/-- Claim C4: calling `register` for an `external_id` that already has a
row never creates a second row: the row count is unchanged, the row keeps
its original `member_number` while `name`, `region`, `email` and
`phone_number` are overwritten with the submitted values, every other row
survives unchanged, and the handler returns the updated outcome
(src/API.py lines 200-208). -/
theorem register_existing_updates_in_place
    (uid nm rg : String) (oem oph : Option String) (stream : List Nat)
    (store : Store) (m : Member)
    (hfind : find_by_line_user_id store uid = some m)
    (hnm : nm ≠ "") (hrg : rg ≠ "") :
    ∃ store',
      register none ⟨some uid, some nm, some rg, oem, oph⟩ stream store =
        some (.complete "会員情報を更新しました。" uid, store') ∧
      store'.length = store.length ∧
      find_by_line_user_id store' uid =
        some { m with name := nm, region := rg, email := oem, phone_number := oph } ∧
      ∀ r ∈ store, r.line_user_id ≠ uid → r ∈ store' := by
  have hfind' : store.find? (fun x => x.line_user_id == uid) = some m := hfind
  have hm : (m.line_user_id == uid) = true := by
    have := List.find?_some hfind'
    simpa using this
  refine ⟨store.map (fun x =>
      if x.line_user_id == uid then
        { x with name := nm, region := rg, email := oem, phone_number := oph }
      else x), ?_, ?_, ?_, ?_⟩
  · rw [register]
    simp only
    rw [if_neg (by simp [hnm, hrg]), hfind]
  · exact List.length_map store _
  · have hcomm : ∀ x : Member,
        ((fun y : Member => y.line_user_id == uid)
          (if x.line_user_id == uid then
            { x with name := nm, region := rg, email := oem, phone_number := oph }
          else x)) = (x.line_user_id == uid) := by
      intro x
      by_cases hx : (x.line_user_id == uid) = true <;> simp [hx]
    unfold find_by_line_user_id at hfind ⊢
    rw [find?_map_of_comm _ _ hcomm, hfind]
    have hEq : m.line_user_id = uid := by simpa using hm
    simp [hEq]
  · intro r hr hne
    refine List.mem_map.mpr ⟨r, hr, ?_⟩
    rw [if_neg]
    simp [hne]

/-- Claim C5: every failing `register` call (any non-200 response —
validation failure, missing form key, or database failure) leaves the
store exactly as it was before the call, and a 500 failure on a complete
form carries the underlying cause appended to the failure message
(src/API.py lines 230-238). -/
theorem register_failure_rolls_back_and_attaches_cause
    (dbError : Option String) (form : RegisterForm) (stream : List Nat)
    (store : Store) (resp : RegisterResponse) (store' : Store)
    (hreg : register dbError form stream store = some (resp, store')) :
    (resp.status ≠ 200 → store' = store) ∧
    (∀ u n r, form.line_user_id = some u → form.name = some n → form.region = some r →
      resp.status = 500 →
      ∃ cause, dbError = some cause ∧
        resp = .serverError ("会員登録に失敗しました。" ++ cause)) := by
  rcases form with ⟨olu, onm, org, oem, oph⟩
  match olu, onm, org with
  | none, _, _ =>
    simp only [register, Option.some.injEq, Prod.mk.injEq] at hreg
    refine ⟨fun _ => hreg.2.symm, ?_⟩
    intro u n r hu hn hr hs
    simp at hu
  | some lu, none, _ =>
    simp only [register, Option.some.injEq, Prod.mk.injEq] at hreg
    refine ⟨fun _ => hreg.2.symm, ?_⟩
    intro u n r hu hn hr hs
    simp at hn
  | some lu, some nm, none =>
    simp only [register, Option.some.injEq, Prod.mk.injEq] at hreg
    refine ⟨fun _ => hreg.2.symm, ?_⟩
    intro u n r hu hn hr hs
    simp at hr
  | some lu, some nm, some rg =>
    rw [register] at hreg
    simp only at hreg
    by_cases hemp : (nm == "" || rg == "") = true
    · rw [if_pos hemp] at hreg
      simp only [Option.some.injEq, Prod.mk.injEq] at hreg
      refine ⟨fun _ => hreg.2.symm, ?_⟩
      intro u n r hu hn hr hs
      rw [← hreg.1] at hs
      simp [RegisterResponse.status] at hs
    · rw [if_neg (by simp [hemp])] at hreg
      cases hex : find_by_line_user_id store lu with
      | some ex =>
        rw [hex] at hreg
        cases dbError with
        | some cause =>
          simp only [Option.some.injEq, Prod.mk.injEq] at hreg
          refine ⟨fun _ => hreg.2.symm, ?_⟩
          intro u n r hu hn hr hs
          exact ⟨cause, rfl, hreg.1.symm⟩
        | none =>
          simp only [Option.some.injEq, Prod.mk.injEq] at hreg
          refine ⟨?_, ?_⟩
          · intro hst
            rw [← hreg.1] at hst
            simp [RegisterResponse.status] at hst
          · intro u n r hu hn hr hs
            rw [← hreg.1] at hs
            simp [RegisterResponse.status] at hs
      | none =>
        rw [hex] at hreg
        by_cases hem : email_format_invalid oem = true
        · rw [if_pos hem] at hreg
          simp only [Option.some.injEq, Prod.mk.injEq] at hreg
          refine ⟨fun _ => hreg.2.symm, ?_⟩
          intro u n r hu hn hr hs
          rw [← hreg.1] at hs
          simp [RegisterResponse.status] at hs
        · rw [if_neg hem] at hreg
          by_cases hph : phone_format_invalid oph = true
          · rw [if_pos hph] at hreg
            simp only [Option.some.injEq, Prod.mk.injEq] at hreg
            refine ⟨fun _ => hreg.2.symm, ?_⟩
            intro u n r hu hn hr hs
            rw [← hreg.1] at hs
            simp [RegisterResponse.status] at hs
          · rw [if_neg hph] at hreg
            cases hgen : generate_member_number store stream with
            | none => rw [hgen] at hreg; simp at hreg
            | some num =>
              rw [hgen] at hreg
              cases dbError with
              | some cause =>
                simp only [Option.some.injEq, Prod.mk.injEq] at hreg
                refine ⟨fun _ => hreg.2.symm, ?_⟩
                intro u n r hu hn hr hs
                exact ⟨cause, rfl, hreg.1.symm⟩
              | none =>
                simp only [Option.some.injEq, Prod.mk.injEq] at hreg
                refine ⟨?_, ?_⟩
                · intro hst
                  rw [← hreg.1] at hst
                  simp [RegisterResponse.status] at hst
                · intro u n r hu hn hr hs
                  rw [← hreg.1] at hs
                  simp [RegisterResponse.status] at hs

/-- Claim C6: a `register` submission whose `name` or `region` field is
present but empty fails with the required-field `ValueError` message and
HTTP 400, with the store untouched, regardless of the email and phone
fields, the store contents, the draw stream, and any pending database
failure — showing the check precedes all other validation and all store
writes (src/API.py lines 194-195 and 230-234). -/
theorem register_missing_required_fields_rejected_first
    (dbError : Option String) (uid nm rg : String) (oem oph : Option String)
    (stream : List Nat) (store : Store)
    (hempty : nm = "" ∨ rg = "") :
    register dbError ⟨some uid, some nm, some rg, oem, oph⟩ stream store =
      some (.badRequest "名前と地域は必須項目です。", store) ∧
    RegisterResponse.status (.badRequest "名前と地域は必須項目です。") = 400 := by
  constructor
  · rw [register]
    simp only
    rw [if_pos (by rcases hempty with h | h <;> simp [h])]
  · rfl

/-- Claim C10: a `register` POST in which the `line_user_id`, `name` or
`region` key is absent entirely raises before validation and is caught by
the generic `except Exception` branch: HTTP 500, not a 400 validation
error, and no row is written (src/API.py lines 186-191 and 235-238). -/
theorem register_missing_form_key_is_server_error
    (dbError : Option String) (form : RegisterForm) (stream : List Nat) (store : Store)
    (hmiss : form.line_user_id = none ∨ form.name = none ∨ form.region = none) :
    register dbError form stream store =
      some (.serverError ("会員登録に失敗しました。" ++ keyErrorMessage), store) ∧
    RegisterResponse.status (.serverError ("会員登録に失敗しました。" ++ keyErrorMessage)) = 500 := by
  rcases form with ⟨olu, onm, org, oem, oph⟩
  cases olu with
  | none => exact ⟨rfl, rfl⟩
  | some lu =>
    cases onm with
    | none => exact ⟨rfl, rfl⟩
    | some nm =>
      cases org with
      | none => exact ⟨rfl, rfl⟩
      | some rg => simp at hmiss

/-- Claim C2 (amended): when no member with the submitted `external_id`
exists, a provided non-empty email containing no `@` character is rejected
with the invalid-email `ValueError` (HTTP 400) and no row is written,
regardless of the phone field, the draw stream and any pending database
failure.  The code checks only `"@" not in email` — not the spec's full
pattern — and only on the new-member branch; the counterexample shows an
email that fails the spec pattern being accepted. -/
theorem register_rejects_email_without_at_for_new_member
    (dbError : Option String) (uid nm rg e : String) (oph : Option String)
    (stream : List Nat) (store : Store)
    (hnew : find_by_line_user_id store uid = none)
    (hnm : nm ≠ "") (hrg : rg ≠ "") (he : e ≠ "") (hat : '@' ∉ e.data) :
    register dbError ⟨some uid, some nm, some rg, some e, oph⟩ stream store =
      some (.badRequest "メールアドレスの形式が正しくありません。", store) := by
  have hd : e.data ≠ [] := by
    intro h
    exact he (String.ext h)
  rw [register]
  simp only
  rw [if_neg (by simp [hnm, hrg]), hnew,
    if_pos (by simp only [email_format_invalid]; simp [hd, hat])]

/-- Claim C8: for an `external_id` with no member row, the
`/show_member_card` route never renders a card — it redirects to the
registration form — and the bot's card-display command replies with the
registration prompt (src/API.py lines 142-154 and 261-275). -/
theorem unregistered_user_gets_registration_prompt
    (uid : String) (store : Store)
    (hno : find_by_line_user_id store uid = none) :
    show_member_card (some uid) store = .redirectToRegistrationForm (some uid) ∧
    (∀ n r mn, show_member_card (some uid) store ≠ .card n r mn) ∧
    handle_message uid "会員証" store = "会員情報が登録されていません。登録してください。" := by
  have h1 : show_member_card (some uid) store = .redirectToRegistrationForm (some uid) := by
    simp [show_member_card, hno]
  refine ⟨h1, ?_, ?_⟩
  · intro n r mn hcontra
    rw [h1] at hcontra
    exact CardResponse.noConfusion hcontra
  · rw [handle_message, if_neg (by decide), if_pos (by decide), hno]

/-- Auxiliary: the update branch of `register` does not change the list
of member numbers in the table. -/
theorem memberNumbers_map_update (store : Store) (lu nm rg : String)
    (oem oph : Option String) :
    memberNumbers (store.map (fun m =>
      if m.line_user_id == lu then
        { m with name := nm, region := rg, email := oem, phone_number := oph }
      else m)) = memberNumbers store := by
  simp only [memberNumbers, List.map_map]
  have hfun : ((fun m : Member => m.member_number) ∘ (fun m : Member =>
      if m.line_user_id == lu then
        { m with name := nm, region := rg, email := oem, phone_number := oph }
      else m)) = fun m : Member => m.member_number := by
    funext x
    by_cases hx : (x.line_user_id == lu) = true <;> simp [hx] <;> split <;> rfl
  rw [hfun]

/-- Auxiliary: an unused member number is not among the table's numbers. -/
theorem not_mem_memberNumbers_of_unused (store : Store) (num : String)
    (h : member_number_used store num = false) : num ∉ memberNumbers store := by
  intro hmem
  rw [memberNumbers, List.mem_map] at hmem
  rcases hmem with ⟨x, hxmem, hxe⟩
  have hany : store.any (fun m => m.member_number == num) = true :=
    List.any_eq_true.mpr ⟨x, hxmem, by simp [hxe]⟩
  rw [member_number_used] at h
  rw [h] at hany
  exact Bool.noConfusion hany

/-- Claim C7: every successful new registration appends exactly one row
whose `member_number` is not already present in the store and matches
`M\d{4}`; and every `register` call preserves pairwise distinctness of
the member numbers in the store, so the numbers issued across N
sequential successful registrations are pairwise distinct (src/API.py
lines 166-176 and 219-227). -/
theorem register_issues_fresh_formatted_distinct_numbers :
    (∀ (dbError : Option String) (form : RegisterForm) (stream : List Nat)
       (store : Store) (resp : RegisterResponse) (store' : Store) (u : String),
        register dbError form stream store = some (resp, store') →
        resp = .complete "会員登録が完了しました。" u →
        ∃ newm : Member, store' = store ++ [newm] ∧
          member_number_used store newm.member_number = false ∧
          matchesMemberNumberFormat newm.member_number = true)
    ∧ (∀ (dbError : Option String) (form : RegisterForm) (stream : List Nat)
         (store : Store) (resp : RegisterResponse) (store' : Store),
        register dbError form stream store = some (resp, store') →
        (memberNumbers store).Nodup → (memberNumbers store').Nodup) := by
  constructor
  · intro dbError form stream store resp store' u hreg hresp
    subst hresp
    rcases form with ⟨olu, onm, org, oem, oph⟩
    match olu, onm, org with
    | none, _, _ => simp [register] at hreg
    | some lu, none, _ => simp [register] at hreg
    | some lu, some nm, none => simp [register] at hreg
    | some lu, some nm, some rg =>
      rw [register] at hreg
      simp only at hreg
      by_cases hemp : (nm == "" || rg == "") = true
      · rw [if_pos hemp] at hreg
        simp at hreg
      · rw [if_neg (by simp [hemp])] at hreg
        cases hex : find_by_line_user_id store lu with
        | some ex =>
          rw [hex] at hreg
          cases dbError with
          | some cause => simp at hreg
          | none =>
            simp only [Option.some.injEq, Prod.mk.injEq] at hreg
            have := hreg.1
            simp only [RegisterResponse.complete.injEq] at this
            exact absurd this.1 (by decide)
        | none =>
          rw [hex] at hreg
          by_cases hem : email_format_invalid oem = true
          · rw [if_pos hem] at hreg; simp at hreg
          · rw [if_neg hem] at hreg
            by_cases hph : phone_format_invalid oph = true
            · rw [if_pos hph] at hreg; simp at hreg
            · rw [if_neg hph] at hreg
              cases hgen : generate_member_number store stream with
              | none => rw [hgen] at hreg; simp at hreg
              | some num =>
                rw [hgen] at hreg
                cases dbError with
                | some cause => simp at hreg
                | none =>
                  simp only [Option.some.injEq, Prod.mk.injEq] at hreg
                  refine ⟨{ line_user_id := lu, name := nm, region := rg, email := oem,
                            phone_number := oph, member_number := num }, hreg.2.symm, ?_, ?_⟩
                  · exact generate_fresh stream store num hgen
                  · exact generate_format stream store num hgen
  · intro dbError form stream store resp store' hreg hnd
    rcases form with ⟨olu, onm, org, oem, oph⟩
    have same : store' = store → (memberNumbers store').Nodup := fun he => he ▸ hnd
    match olu, onm, org with
    | none, _, _ =>
      simp only [register, Option.some.injEq, Prod.mk.injEq] at hreg
      exact same hreg.2.symm
    | some lu, none, _ =>
      simp only [register, Option.some.injEq, Prod.mk.injEq] at hreg
      exact same hreg.2.symm
    | some lu, some nm, none =>
      simp only [register, Option.some.injEq, Prod.mk.injEq] at hreg
      exact same hreg.2.symm
    | some lu, some nm, some rg =>
      rw [register] at hreg
      simp only at hreg
      by_cases hemp : (nm == "" || rg == "") = true
      · rw [if_pos hemp] at hreg
        simp only [Option.some.injEq, Prod.mk.injEq] at hreg
        exact same hreg.2.symm
      · rw [if_neg (by simp [hemp])] at hreg
        cases hex : find_by_line_user_id store lu with
        | some ex =>
          rw [hex] at hreg
          cases dbError with
          | some cause =>
            simp only [Option.some.injEq, Prod.mk.injEq] at hreg
            exact same hreg.2.symm
          | none =>
            simp only [Option.some.injEq, Prod.mk.injEq] at hreg
            rw [← hreg.2, memberNumbers_map_update]
            exact hnd
        | none =>
          rw [hex] at hreg
          by_cases hem : email_format_invalid oem = true
          · rw [if_pos hem] at hreg
            simp only [Option.some.injEq, Prod.mk.injEq] at hreg
            exact same hreg.2.symm
          · rw [if_neg hem] at hreg
            by_cases hph : phone_format_invalid oph = true
            · rw [if_pos hph] at hreg
              simp only [Option.some.injEq, Prod.mk.injEq] at hreg
              exact same hreg.2.symm
            · rw [if_neg hph] at hreg
              cases hgen : generate_member_number store stream with
              | none => rw [hgen] at hreg; simp at hreg
              | some num =>
                rw [hgen] at hreg
                cases dbError with
                | some cause =>
                  simp only [Option.some.injEq, Prod.mk.injEq] at hreg
                  exact same hreg.2.symm
                | none =>
                  simp only [Option.some.injEq, Prod.mk.injEq] at hreg
                  rw [← hreg.2]
                  have hfresh := generate_fresh stream store num hgen
                  have hnotmem := not_mem_memberNumbers_of_unused store num hfresh
                  simp only [memberNumbers, List.map_append, List.map_cons, List.map_nil]
                  rw [List.nodup_append]
                  refine ⟨hnd, List.nodup_singleton num, ?_⟩
                  intro a ha hb
                  simp only [List.mem_singleton] at hb
                  subst hb
                  exact hnotmem ha

/-- Auxiliary: in `fullStore` every in-range draw collides. -/
theorem fullStore_contains_all (r : Nat) (h1 : 1 ≤ r) (h2 : r ≤ 9999) :
    member_number_used fullStore (mkMemberNumber r) = true := by
  rw [member_number_used, fullStore, List.any_eq_true]
  refine ⟨_, List.mem_map.mpr ⟨r - 1, List.mem_range.mpr (by omega), rfl⟩, ?_⟩
  show (mkMemberNumber (r - 1 + 1) == mkMemberNumber r) = true
  have hr : r - 1 + 1 = r := by omega
  rw [hr]
  exact beq_self_eq_true _

/-- Auxiliary: on `fullStore` the generator rejects every in-range draw,
so no finite prefix of the random stream makes the loop return. -/
theorem generate_none_on_fullStore :
    ∀ stream : List Nat, (∀ r ∈ stream, 1 ≤ r ∧ r ≤ 9999) →
      generate_member_number fullStore stream = none := by
  intro stream
  induction stream with
  | nil => intro _; rfl
  | cons r rs ih =>
    intro hr
    have h := hr r (List.mem_cons_self r rs)
    simp only [generate_member_number, fullStore_contains_all r h.1 h.2, if_true]
    exact ih (fun x hx => hr x (List.mem_cons_of_mem r hx))

/-- Claim C9 (counterexample): the claim says the generator terminates for
every store state.  On a store already holding all 9999 possible numbers,
no sequence of `randint(1, 9999)` draws makes the `while True` loop
return: the loop runs forever. -/
theorem generator_never_terminates_on_full_store :
    ¬ ∃ stream : List Nat,
        (∀ r ∈ stream, 1 ≤ r ∧ r ≤ 9999) ∧
        (generate_member_number fullStore stream).isSome = true := by
  rintro ⟨stream, hrange, hsome⟩
  rw [generate_none_on_fullStore stream hrange] at hsome
  exact Bool.noConfusion hsome

/-- Claim C9 (amended): whenever the generator returns, the returned
member number is not already present in the store; and for any store in
which some number `M0001`-`M9999` is still free, there is a draw sequence
on which the generator terminates with that fresh number.  Termination
for every store state, as originally claimed, is refuted by
the counterexample. -/
theorem generator_fresh_and_terminates_when_number_free :
    (∀ (store : Store) (stream : List Nat) (num : String),
        generate_member_number store stream = some num →
        member_number_used store num = false)
    ∧ (∀ (store : Store) (r : Nat), 1 ≤ r → r ≤ 9999 →
        member_number_used store (mkMemberNumber r) = false →
        ∃ stream : List Nat, (∀ x ∈ stream, 1 ≤ x ∧ x ≤ 9999) ∧
          generate_member_number store stream = some (mkMemberNumber r)) := by
  constructor
  · intro store stream num h
    exact generate_fresh stream store num h
  · intro store r h1 h2 hfree
    refine ⟨[r], ?_, ?_⟩
    · intro x hx
      rw [List.mem_singleton] at hx
      subst hx
      exact ⟨h1, h2⟩
    · simp [generate_member_number, hfree]

/-- Claim C1 (counterexample): the profile-update path does reassign
`member_number`.  Starting from a row issued `M0001`, a POST to
`/update_profile` carrying `member_number=X999` succeeds and overwrites
the issued number (src/API.py lines 306-310). -/
theorem update_profile_reassigns_member_number :
    update_profile_post (some "U1") none (some "X999")
      [{ line_user_id := "U1", name := "Taro", region := "Tokyo",
         email := none, phone_number := none, member_number := "M0001" }] =
      (.complete,
       [{ line_user_id := "U1", name := "Taro", region := "Tokyo",
          email := none, phone_number := none, member_number := "X999" }]) ∧
    ("X999" : String) ≠ "M0001" := by
  exact ⟨rfl, by decide⟩

/-- Claim C2 (counterexample): the email `a@b` fails the spec pattern
`^[^@]+@[^@]+\.[^@]+$` (no dot in the domain), yet `register` accepts it
— the code only tests `"@" not in email` — and writes the row. -/
theorem register_accepts_email_failing_spec_pattern :
    matchesEmailPattern "a@b" = false ∧
    register none ⟨some "U1", some "Taro", some "Tokyo", some "a@b", none⟩ [1] [] =
      some (.complete "会員登録が完了しました。" "U1",
        [{ line_user_id := "U1", name := "Taro", region := "Tokyo",
           email := some "a@b", phone_number := none, member_number := "M0001" }]) := by
  exact ⟨rfl, rfl⟩

/-- Claim C3 (counterexample): the first registration from an empty store
is not guaranteed `M0001`: the issued number is the random draw, so with
the draw 5 the new row gets `M0005`. -/
theorem first_registration_not_M0001_for_draw_five :
    register none ⟨some "U1", some "Taro", some "Tokyo", none, none⟩ [5] [] =
      some (.complete "会員登録が完了しました。" "U1",
        [{ line_user_id := "U1", name := "Taro", region := "Tokyo",
           email := none, phone_number := none, member_number := "M0005" }]) ∧
    ("M0005" : String) ≠ "M0001" := by
  exact ⟨rfl, by decide⟩

/-- Claim C3 (amended): with random draws 1 and 2, the spec's scenario
holds exactly: registering `U1` issues `M0001`, registering `U2` issues
`M0002`, and re-registering `U1` with name `Taro Y` updates the row in
place, keeping `M0001`. -/
theorem registration_scenario_with_draws_one_two :
    register none ⟨some "U1", some "Taro", some "Tokyo", none, none⟩ [1] [] =
      some (.complete "会員登録が完了しました。" "U1",
        [{ line_user_id := "U1", name := "Taro", region := "Tokyo",
           email := none, phone_number := none, member_number := "M0001" }]) ∧
    register none ⟨some "U2", some "Hana", some "Osaka", none, none⟩ [2]
        [{ line_user_id := "U1", name := "Taro", region := "Tokyo",
           email := none, phone_number := none, member_number := "M0001" }] =
      some (.complete "会員登録が完了しました。" "U2",
        [{ line_user_id := "U1", name := "Taro", region := "Tokyo",
           email := none, phone_number := none, member_number := "M0001" },
         { line_user_id := "U2", name := "Hana", region := "Osaka",
           email := none, phone_number := none, member_number := "M0002" }]) ∧
    register none ⟨some "U1", some "Taro Y", some "Tokyo", none, none⟩ []
        [{ line_user_id := "U1", name := "Taro", region := "Tokyo",
           email := none, phone_number := none, member_number := "M0001" },
         { line_user_id := "U2", name := "Hana", region := "Osaka",
           email := none, phone_number := none, member_number := "M0002" }] =
      some (.complete "会員情報を更新しました。" "U1",
        [{ line_user_id := "U1", name := "Taro Y", region := "Tokyo",
           email := none, phone_number := none, member_number := "M0001" },
         { line_user_id := "U2", name := "Hana", region := "Osaka",
           email := none, phone_number := none, member_number := "M0002" }]) := by
  exact ⟨rfl, rfl, rfl⟩

/-- Witness for the C1 amended theorem at a concrete store and call. -/
theorem register_preserves_existing_member_number_witness :
    ∃ m', find_by_line_user_id
        [{ line_user_id := "U1", name := "Hana", region := "Osaka",
           email := none, phone_number := none, member_number := "M0001" }] "U1" = some m' ∧
      m'.member_number = "M0001" :=
  register_preserves_existing_member_number none
    ⟨some "U1", some "Hana", some "Osaka", none, none⟩ []
    [{ line_user_id := "U1", name := "Taro", region := "Tokyo",
       email := none, phone_number := none, member_number := "M0001" }]
    (.complete "会員情報を更新しました。" "U1")
    [{ line_user_id := "U1", name := "Hana", region := "Osaka",
       email := none, phone_number := none, member_number := "M0001" }]
    rfl "U1"
    { line_user_id := "U1", name := "Taro", region := "Tokyo",
      email := none, phone_number := none, member_number := "M0001" }
    rfl

/-- Witness for the C2 amended theorem at a concrete call. -/
theorem register_rejects_email_without_at_for_new_member_witness :
    register none ⟨some "U1", some "Taro", some "Tokyo", some "bad-email", none⟩ [] [] =
      some (.badRequest "メールアドレスの形式が正しくありません。", []) :=
  register_rejects_email_without_at_for_new_member none "U1" "Taro" "Tokyo" "bad-email" none
    [] [] rfl (by decide) (by decide) (by decide) (by decide)

/-- Witness for C4 at a concrete one-row store. -/
theorem register_existing_updates_in_place_witness :
    ∃ store',
      register none ⟨some "U1", some "Hana", some "Osaka", none, none⟩ []
          [{ line_user_id := "U1", name := "Taro", region := "Tokyo",
             email := none, phone_number := none, member_number := "M0001" }] =
        some (.complete "会員情報を更新しました。" "U1", store') ∧
      store'.length = 1 ∧
      find_by_line_user_id store' "U1" =
        some { line_user_id := "U1", name := "Hana", region := "Osaka",
               email := none, phone_number := none, member_number := "M0001" } ∧
      ∀ r ∈ [({ line_user_id := "U1", name := "Taro", region := "Tokyo",
                email := none, phone_number := none, member_number := "M0001" } : Member)],
        r.line_user_id ≠ "U1" → r ∈ store' :=
  register_existing_updates_in_place "U1" "Hana" "Osaka" none none []
    [{ line_user_id := "U1", name := "Taro", region := "Tokyo",
       email := none, phone_number := none, member_number := "M0001" }]
    { line_user_id := "U1", name := "Taro", region := "Tokyo",
      email := none, phone_number := none, member_number := "M0001" }
    rfl (by decide) (by decide)

/-- Witness for C5 at a concrete database failure. -/
theorem register_failure_rolls_back_and_attaches_cause_witness :
    ∃ cause, (some "database is locked" : Option String) = some cause ∧
      RegisterResponse.serverError ("会員登録に失敗しました。" ++ "database is locked") =
        .serverError ("会員登録に失敗しました。" ++ cause) :=
  (register_failure_rolls_back_and_attaches_cause (some "database is locked")
    ⟨some "U1", some "Taro", some "Tokyo", none, none⟩ [1] []
    (.serverError ("会員登録に失敗しました。" ++ "database is locked")) [] rfl).2
    "U1" "Taro" "Tokyo" rfl rfl rfl rfl

/-- Witness for C6 at a concrete empty-name submission. -/
theorem register_missing_required_fields_rejected_first_witness :
    register none ⟨some "U1", some "", some "Tokyo", none, none⟩ [] [] =
      some (.badRequest "名前と地域は必須項目です。", []) ∧
    RegisterResponse.status (.badRequest "名前と地域は必須項目です。") = 400 :=
  register_missing_required_fields_rejected_first none "U1" "" "Tokyo" none none [] []
    (Or.inl rfl)

/-- Witness for C7 at a concrete first registration. -/
theorem register_issues_fresh_formatted_distinct_numbers_witness :
    (∃ newm : Member,
        [(⟨"U1", "Taro", "Tokyo", none, none, "M0001"⟩ : Member)] = [] ++ [newm] ∧
        member_number_used [] newm.member_number = false ∧
        matchesMemberNumberFormat newm.member_number = true) ∧
    (memberNumbers [(⟨"U1", "Taro", "Tokyo", none, none, "M0001"⟩ : Member)]).Nodup :=
  ⟨register_issues_fresh_formatted_distinct_numbers.1 none
      ⟨some "U1", some "Taro", some "Tokyo", none, none⟩ [1] []
      (.complete "会員登録が完了しました。" "U1")
      [⟨"U1", "Taro", "Tokyo", none, none, "M0001"⟩] "U1" rfl rfl,
   register_issues_fresh_formatted_distinct_numbers.2 none
      ⟨some "U1", some "Taro", some "Tokyo", none, none⟩ [1] []
      (.complete "会員登録が完了しました。" "U1")
      [⟨"U1", "Taro", "Tokyo", none, none, "M0001"⟩]
      rfl List.nodup_nil⟩

/-- Witness for C8 at an empty store. -/
theorem unregistered_user_gets_registration_prompt_witness :
    show_member_card (some "U9") [] = .redirectToRegistrationForm (some "U9") ∧
    (∀ n r mn, show_member_card (some "U9") [] ≠ .card n r mn) ∧
    handle_message "U9" "会員証" [] = "会員情報が登録されていません。登録してください。" :=
  unregistered_user_gets_registration_prompt "U9" [] rfl

/-- Witness for the C9 amended theorem at an empty store. -/
theorem generator_fresh_and_terminates_when_number_free_witness :
    member_number_used [] "M0001" = false ∧
    ∃ stream : List Nat, (∀ x ∈ stream, 1 ≤ x ∧ x ≤ 9999) ∧
      generate_member_number [] stream = some (mkMemberNumber 1) :=
  ⟨generator_fresh_and_terminates_when_number_free.1 [] [1] "M0001" rfl,
   generator_fresh_and_terminates_when_number_free.2 [] 1 (by decide) (by decide) rfl⟩

/-- Witness for C10 with the line-user-id key absent. -/
theorem register_missing_form_key_is_server_error_witness :
    register none ⟨none, some "Taro", some "Tokyo", none, none⟩ [] [] =
      some (.serverError ("会員登録に失敗しました。" ++ keyErrorMessage), []) ∧
    RegisterResponse.status (.serverError ("会員登録に失敗しました。" ++ keyErrorMessage)) = 500 :=
  register_missing_form_key_is_server_error none
    ⟨none, some "Taro", some "Tokyo", none, none⟩ [] [] (Or.inl rfl)
